import Mathlib

/-!
Shallow embedding of the pyUSID dask-distributed tutorial notebook
(src/11_dask_distributed.ipynb).  The notebook feeds one USID main dataset
through three execution strategies — a serial python loop, the external
pyUSID.parallel_compute helper, and a dask.distributed client — and benchmarks
their wall-clock cost against the degree of parallelism, rendering a scatter
plot at the end.  The peak detector (find_all_peaks, shipped in the repo's
supporting_docs directory which is not part of the sources here) is treated as
an opaque function, as the specification directs.
-/

/-- A row of the USID main dataset: one pixel's spectrum, h5_main[pixel_ind].
Sample values are modelled as integers; their numeric type plays no role in any
property below. -/
abbrev Row := List Int

/-- The dataset raw_data = h5_main[()]: an ordered sequence of rows. -/
abbrev Dataset := List Row

/-- A per-row peak result: the indices of local maxima returned by
find_all_peaks for that row. -/
abbrev PeakResult := List Nat

/-- Detector parameters: the width bounds [20, 60] and num_steps=30 passed at
every call site of find_all_peaks in the notebook. -/
structure DetectorParams where
  widthBoundMin : Int
  widthBoundMax : Int
  numSteps : Nat
  deriving DecidableEq, Repr

/-- Modelled from the spec: find_all_peaks lives in supporting_docs, outside
the sources given here; the spec declares it an external, pure, deterministic
black box.  It is therefore a parameter: a pure function from a row and the
parameters to a peak list, with none standing for a raised python exception. -/
abbrev Detector := Row → DetectorParams → Option PeakResult

/-- Errors a strategy run can surface: a detector exception at a row, a python
NameError on an unbound variable, or an IndexError from indexing past the end
of a list. -/
inductive RunError where
  | detectionFailed (rowIndex : Nat)
  | nameError (unboundName : String)
  | indexOutOfRange
  deriving DecidableEq, Repr

/-- What a strategy returns: the per-row results sequence and the degree of
parallelism it reports for the benchmark. -/
structure RunOutput where
  results : List PeakResult
  parallelism : Nat
  deriving DecidableEq, Repr

/-- The serial cell's loop: for vector in raw_data, append
find_all_peaks(vector, [20, 60], num_steps=30) to serial_results.  A detector
exception at row i aborts the whole loop, surfaced as detectionFailed i. -/
def serialLoop (detect : Detector) (p : DetectorParams) :
    Dataset → Nat → Except RunError (List PeakResult)
  | [], _ => .ok []
  | r :: rs, i =>
    match detect r p with
    | none => .error (.detectionFailed i)
    | some pk =>
      match serialLoop detect p rs (i + 1) with
      | .error e => .error e
      | .ok tail => .ok (pk :: tail)

/-- The Serial strategy (the serial compute cell): run the loop over all rows
on the calling thread; core_serial = 1. -/
def serialRun (detect : Detector) (p : DetectorParams) (d : Dataset) :
    Except RunError RunOutput :=
  match serialLoop detect p d 0 with
  | .error e => .error e
  | .ok rs => .ok { results := rs, parallelism := 1 }

/-- Contiguous chunks of size max 1 s, with an explicit structural fuel so the
function computes by kernel reduction; fuel at least the list length is enough
for the fuel never to run out. -/
def splitIntoChunksFuel (fuel s : Nat) : List Row → List (List Row)
  | [] => []
  | x :: xs =>
    match fuel with
    | 0 => []
    | fuel' + 1 =>
      (x :: xs.take (s - 1)) :: splitIntoChunksFuel fuel' s (xs.drop (s - 1))

/-- Partition the dataset rows into contiguous chunks of size max 1 s. -/
def splitIntoChunks (s : Nat) (d : Dataset) : List (List Row) :=
  splitIntoChunksFuel d.length s d

/-- Each worker processes its chunk serially (row indices offset by the rows
that precede the chunk); results are gathered back in original chunk order and
concatenated.  The first worker failure fails the whole batch. -/
def gatherChunks (detect : Detector) (p : DetectorParams) :
    List (List Row) → Nat → Except RunError (List PeakResult)
  | [], _ => .ok []
  | ch :: rest, i =>
    match serialLoop detect p ch i with
    | .error e => .error e
    | .ok a =>
      match gatherChunks detect p rest (i + ch.length) with
      | .error e => .error e
      | .ok b => .ok (a ++ b)

/-- Modelled from the spec: usid.parallel_compute is external pyUSID code, not
among the sources here.  Per the spec it partitions rows across a bounded
worker pool sized by the caller-supplied core count c, each worker processes a
partition serially, and results are reassembled in original row order; chunk
sizes are the ceiling of rows over cores. -/
def parallel_compute (detect : Detector) (p : DetectorParams) (c : Nat)
    (d : Dataset) : Except RunError (List PeakResult) :=
  gatherChunks detect p (splitIntoChunks ((d.length + c - 1) / c) d) 0

/-- The LocalMultiCore strategy (the parallel_compute cell): cores = c, the
results are those of parallel_compute, cores_parallel = c. -/
def parallelRun (detect : Detector) (p : DetectorParams) (c : Nat)
    (d : Dataset) : Except RunError RunOutput :=
  match parallel_compute detect p c d with
  | .error e => .error e
  | .ok rs => .ok { results := rs, parallelism := c }

instance {ε α : Type} [DecidableEq ε] [DecidableEq α] :
    DecidableEq (Except ε α) := fun x y =>
  match x, y with
  | .ok a, .ok b =>
    if h : a = b then .isTrue (by rw [h]) else .isFalse (by simp [h])
  | .ok _, .error _ => .isFalse (by simp)
  | .error _, .ok _ => .isFalse (by simp)
  | .error a, .error b =>
    if h : a = b then .isTrue (by rw [h]) else .isFalse (by simp [h])

/-- Connection states of the distributed-cluster strategy, as in the spec's
state machine for DistributedCluster. -/
inductive DaskState where
  | disconnected
  | connected
  | dataScattered
  | tasksSubmitted
  | gathered
  deriving DecidableEq, Repr

/-- Outcome of one execution of the dask cell: the surfaced value or error,
and the connection state the cell leaves the client in. -/
structure DaskRun where
  result : Except RunError RunOutput
  finalState : DaskState
  deriving DecidableEq, Repr

/-- Names bound in the dask cell before its client.map line: start, raw_data
(rebound to the scatter future), args, kwargs and client.  The name
raw_data_list that the client.map line reads is bound nowhere in the
notebook. -/
def daskCellBoundNames : List String :=
  ["start", "raw_data", "args", "kwargs", "client"]

/-- Tail of the dask cell once the map line's names resolve: one task per row
is submitted over the scattered data, client.gather blocks until all tasks
finish or one fails, cores_dask = client.ncores() is read (w below), and
client.close() runs.  The cell is straight-line code with no try/finally, so
client.close() executes only when gather returns; a failing task leaves the
client open in the tasksSubmitted state.  Gathering reassembles the
deterministic per-row outputs in row order, hence the serial loop. -/
def daskSubmitGatherClose (detect : Detector) (p : DetectorParams) (w : Nat)
    (d : Dataset) : DaskRun :=
  match serialLoop detect p d 0 with
  | .error e => { result := .error e, finalState := .tasksSubmitted }
  | .ok rs =>
    { result := .ok { results := rs, parallelism := w }
      finalState := .disconnected }

/-- The dask cell exactly as written: Client(processes=False) connects,
raw_data = client.scatter(raw_data) scatters, and then
client.map(find_all_peaks, raw_data_list, args, kwargs) resolves the name
raw_data_list.  That name is unbound, so the line raises NameError with the
scatter already done and the client never closed. -/
def distributedRunAsWritten (detect : Detector) (p : DetectorParams) (w : Nat)
    (d : Dataset) : DaskRun :=
  if "raw_data_list" ∈ daskCellBoundNames then
    daskSubmitGatherClose detect p w d
  else
    { result := .error (.nameError "raw_data_list")
      finalState := .dataScattered }

/-- Modelled from the spec: the spec directs implementers to pass the
scattered handle (the rebound raw_data) into the map call in place of the
unbound raw_data_list.  With that one change the cell maps find_all_peaks
over the scattered rows; everything else is unchanged — in particular there is
still no try/finally around gather and close. -/
def distributedRun (detect : Detector) (p : DetectorParams) (w : Nat)
    (d : Dataset) : DaskRun :=
  daskSubmitGatherClose detect p w d

/-- True when a dask run surfaced a value rather than an error. -/
def runSucceeded (r : DaskRun) : Bool :=
  match r.result with
  | .ok _ => true
  | .error _ => false

/-- One benchmark record per strategy: its name, the measured wall-clock
difference (an abstract tick count; the measurement itself is
non-deterministic and supplied from outside), and the cores used. -/
structure BenchmarkSample where
  strategyName : String
  elapsedSeconds : Nat
  parallelism : Nat
  deriving DecidableEq, Repr

/-- The three benchmark cells executed in order as one script.  The notebook
contains no try/except, so an uncaught exception in any strategy cell stops
execution there: nothing is recorded for the failing strategy and the
remaining cells never run.  tSerial, tParallel and tDask stand for the
non-deterministic wall-clock differences measured by each cell; the
distributed step is the spec-directed distributedRun so that a successful
complete pass is expressible. -/
def benchmarkDriver (detect : Detector) (p : DetectorParams) (c w : Nat)
    (tSerial tParallel tDask : Nat) (d : Dataset) :
    Except RunError (List BenchmarkSample) :=
  match serialRun detect p d with
  | .error e => .error e
  | .ok s1 =>
    match parallelRun detect p c d with
    | .error e => .error e
    | .ok s2 =>
      match (distributedRun detect p w d).result with
      | .error e => .error e
      | .ok s3 =>
        .ok [ { strategyName := "serial", elapsedSeconds := tSerial,
                parallelism := s1.parallelism },
              { strategyName := "parallel_compute", elapsedSeconds := tParallel,
                parallelism := s2.parallelism },
              { strategyName := "dask", elapsedSeconds := tDask,
                parallelism := s3.parallelism } ]

/-- The image file the plot cell persists: its name and the scatter points it
contains, one (cores, seconds) pair per plotted strategy. -/
structure PlotFile where
  fileName : String
  points : List (Nat × Nat)
  deriving DecidableEq, Repr

/-- The plot cell: one axis.scatter(cores, time) call per strategy and then
plt.savefig of png_name with the suffix .png appended by the format string.
The base name png_name is bound nowhere in the notebook; modelled from the
spec, it is a caller-supplied base name. -/
def renderBenchmark (png_name : String) (report : List BenchmarkSample) :
    PlotFile :=
  { fileName := png_name ++ ".png"
    points := report.map fun s => (s.parallelism, s.elapsedSeconds) }

/-- A tiny file-system model for the download cell: an association list from
path to file content, content abstracted as a numeric version so that stale
and fresh bytes are distinguishable. -/
abbrev FileSys := List (String × Nat)

/-- Test for os.path.exists. -/
def fsExists (fs : FileSys) (path : String) : Bool :=
  fs.any fun e => e.1 == path

/-- Effect of os.remove: drop every entry at the path. -/
def fsRemove (fs : FileSys) (path : String) : FileSys :=
  fs.filter fun e => e.1 != path

/-- Reading a path: the first entry found, as python's open would see it. -/
def fsRead (fs : FileSys) (path : String) : Option Nat :=
  fs.lookup path

/-- The local cache path the download cell uses. -/
def h5_path : String := "temp.h5"

/-- The download cell's pre-load cleanup, as written:
if os.path.exists(h5_path): os.remove(h5_path). -/
def preLoadCleanup (fs : FileSys) : FileSys :=
  if fsExists fs h5_path then fsRemove fs h5_path else fs

/-- wget.download(url, h5_path): writes the remote content at h5_path,
replacing whatever was there. -/
def downloadTo (fs : FileSys) (remoteContent : Nat) : FileSys :=
  (h5_path, remoteContent) :: fsRemove fs h5_path

/-- h5py.File(h5_path, mode=r) and the subsequent reads: whatever content sits
at the cache path. -/
def loadDataset (fs : FileSys) : Option Nat :=
  fsRead fs h5_path

/-- The externally visible steps of a benchmark cell, in program order. -/
inductive BenchStep where
  | startTimer
  | readDataset
  | computeRows
  | stopTimer
  | createClient
  | scatterData
  | mapTasks
  | gatherResults
  | queryCores
  | closeClient
  deriving DecidableEq, Repr

/-- The serial cell: start = time.time(); raw_data = h5_main[()]; the loop;
time_serial = time.time() - start. -/
def serialCellSteps : List BenchStep :=
  [.startTimer, .readDataset, .computeRows, .stopTimer]

/-- The parallel_compute cell: start = time.time(); raw_data = h5_main[()];
the parallel_compute call; time_parallel = time.time() - start. -/
def parallelCellSteps : List BenchStep :=
  [.startTimer, .readDataset, .computeRows, .stopTimer]

/-- The dask cell: start = time.time(); raw_data = h5_main[()]; Client();
client.scatter; client.map; client.gather; client.ncores(); client.close();
time_dask = time.time() - start. -/
def daskCellSteps : List BenchStep :=
  [.startTimer, .readDataset, .createClient, .scatterData, .mapTasks,
   .gatherResults, .queryCores, .closeClient, .stopTimer]

/-- A step lies inside a cell's elapsed-time measurement window when it sits
after the time.time() call that opens the window and before the one that
closes it. -/
def inTimedWindow (steps : List BenchStep) (s : BenchStep) : Bool :=
  decide (steps.indexOf .startTimer < steps.indexOf s) &&
    decide (steps.indexOf s < steps.indexOf .stopTimer)

/-- The single-pixel demonstration cell: peak_inds = find_all_peaks(spectra,
[20, 60], num_steps=30), then axis.axvline(peak_inds[0]) indexes the first
element of the returned peak list unconditionally; on an empty list python
raises IndexError. -/
def singlePixelDemo (detect : Detector) (p : DetectorParams) (spectra : Row) :
    Except RunError Nat :=
  match detect spectra p with
  | none => .error (.detectionFailed 0)
  | some peak_inds =>
    match peak_inds.head? with
    | none => .error .indexOutOfRange
    | some v => .ok v

/-- Check that a results sequence has one entry per dataset row and that every
reported peak index lies inside its row. -/
def resultsWithinRows (rs : List PeakResult) (d : Dataset) : Bool :=
  rs.length == d.length &&
    (rs.zip d).all fun pr => pr.1.all fun j => decide (j < pr.2.length)

/-- Check that a strategy run succeeded and its results sequence is shaped by
the dataset: one entry per row, indices inside the row. -/
def runResultsValid (d : Dataset) (r : Except RunError RunOutput) : Bool :=
  match r with
  | .error _ => false
  | .ok o => resultsWithinRows o.results d

/-- Detector parameters used at every call site of the notebook: width bounds
[20, 60] and num_steps 30. -/
def tutorialParams : DetectorParams :=
  { widthBoundMin := 20, widthBoundMax := 60, numSteps := 30 }

/-- A concrete detector for evaluations: every row reports one peak at index
four, matching the spec's three-rows-of-length-ten scenario. -/
def constPeakDetector : Detector := fun _ _ => some [4]

/-- A concrete detector that finds no peak in any row. -/
def noPeakDetector : Detector := fun _ _ => some []

/-- A concrete detector that raises an exception on every row. -/
def failingDetector : Detector := fun _ _ => none

/-- A three-row demonstration dataset, each row of length ten. -/
def demoDataset : Dataset :=
  [List.replicate 10 0, List.replicate 10 1, List.replicate 10 2]

/-- The report the driver produces on the demonstration dataset with the
constant-peak detector, three local cores, four cluster slots and unit
tick counts. -/
def demoReport : List BenchmarkSample :=
  [ { strategyName := "serial", elapsedSeconds := 1, parallelism := 1 },
    { strategyName := "parallel_compute", elapsedSeconds := 1, parallelism := 3 },
    { strategyName := "dask", elapsedSeconds := 1, parallelism := 4 } ]

/-!
Helper lemmas: the chunked computation of parallel_compute is the serial loop,
and the serial loop succeeds row by row whenever the detector does.
-/

theorem splitIntoChunksFuel_flatten (s : Nat) :
    ∀ (fuel : Nat) (l : List Row), l.length ≤ fuel →
      (splitIntoChunksFuel fuel s l).flatten = l := by
  intro fuel
  induction fuel with
  | zero =>
    intro l hl
    cases l with
    | nil => simp [splitIntoChunksFuel]
    | cons x xs => simp at hl
  | succ n ih =>
    intro l hl
    cases l with
    | nil => simp [splitIntoChunksFuel]
    | cons x xs =>
      have hxs : xs.length ≤ n := by
        simp at hl
        omega
      have hdrop : (xs.drop (s - 1)).length ≤ n := by
        simp only [List.length_drop]
        exact Nat.le_trans (Nat.sub_le _ _) hxs
      simp only [splitIntoChunksFuel, List.flatten_cons, List.cons_append]
      rw [ih (xs.drop (s - 1)) hdrop, List.take_append_drop]

theorem splitIntoChunks_flatten (s : Nat) (d : Dataset) :
    (splitIntoChunks s d).flatten = d :=
  splitIntoChunksFuel_flatten s d.length d (Nat.le_refl _)

theorem serialLoop_append (detect : Detector) (p : DetectorParams) :
    ∀ (xs ys : Dataset) (i : Nat),
      serialLoop detect p (xs ++ ys) i =
        match serialLoop detect p xs i with
        | .error e => .error e
        | .ok a =>
          match serialLoop detect p ys (i + xs.length) with
          | .error e => .error e
          | .ok b => .ok (a ++ b) := by
  intro xs
  induction xs with
  | nil =>
    intro ys i
    simp only [List.nil_append, serialLoop, List.length_nil, Nat.add_zero]
    cases serialLoop detect p ys i with
    | error e => rfl
    | ok b => simp
  | cons r rs ih =>
    intro ys i
    cases hdet : detect r p with
    | none =>
      simp [serialLoop, hdet]
    | some pk =>
      simp only [List.cons_append, serialLoop, hdet, List.append_eq,
        List.length_cons]
      rw [ih ys (i + 1)]
      have harith : i + 1 + rs.length = i + (rs.length + 1) := by omega
      rw [harith]
      cases serialLoop detect p rs (i + 1) with
      | error e => rfl
      | ok a =>
        cases serialLoop detect p ys (i + (rs.length + 1)) with
        | error e => rfl
        | ok b => simp

theorem gatherChunks_eq_serialLoop (detect : Detector) (p : DetectorParams) :
    ∀ (chunks : List (List Row)) (i : Nat),
      gatherChunks detect p chunks i = serialLoop detect p chunks.flatten i := by
  intro chunks
  induction chunks with
  | nil =>
    intro i
    simp [gatherChunks, serialLoop]
  | cons ch rest ih =>
    intro i
    simp only [gatherChunks, List.flatten_cons]
    rw [serialLoop_append detect p ch rest.flatten i, ih (i + ch.length)]

theorem parallel_compute_eq_serialLoop (detect : Detector) (p : DetectorParams)
    (c : Nat) (d : Dataset) :
    parallel_compute detect p c d = serialLoop detect p d 0 := by
  unfold parallel_compute
  rw [gatherChunks_eq_serialLoop, splitIntoChunks_flatten]

theorem parallelRun_eq_serialRun (detect : Detector) (p : DetectorParams)
    (c : Nat) (d : Dataset) :
    parallelRun detect p c d =
      match serialRun detect p d with
      | .error e => .error e
      | .ok o => .ok { o with parallelism := c } := by
  unfold parallelRun serialRun
  rw [parallel_compute_eq_serialLoop]
  cases serialLoop detect p d 0 with
  | error e => rfl
  | ok rs => rfl

theorem serialLoop_ok_of_total (detect : Detector) (p : DetectorParams) :
    ∀ (d : Dataset) (i : Nat),
      (∀ r ∈ d, (detect r p).isSome = true) →
      ∃ rs, serialLoop detect p d i = .ok rs ∧
        List.Forall₂ (fun pk r => detect r p = some pk) rs d := by
  intro d
  induction d with
  | nil =>
    intro i _
    exact ⟨[], rfl, List.Forall₂.nil⟩
  | cons r rest ih =>
    intro i htot
    have hr : (detect r p).isSome = true := htot r (List.mem_cons_self r rest)
    obtain ⟨pk, hpk⟩ := Option.isSome_iff_exists.mp hr
    obtain ⟨tail, htail, hrel⟩ :=
      ih (i + 1) fun x hx => htot x (List.mem_cons_of_mem r hx)
    refine ⟨pk :: tail, ?_, List.Forall₂.cons hpk hrel⟩
    simp [serialLoop, hpk, htail]

theorem resultsWithinRows_of_forall₂ (detect : Detector) (p : DetectorParams) :
    ∀ {rs : List PeakResult} {d : Dataset},
      List.Forall₂ (fun pk r => detect r p = some pk) rs d →
      (∀ r ∈ d, ∀ pk, detect r p = some pk →
        pk.all (fun j => decide (j < r.length)) = true) →
      resultsWithinRows rs d = true := by
  intro rs d h
  induction h with
  | nil =>
    intro _
    rfl
  | @cons pk r rs' d' hpk hrest ih =>
    intro hc
    have hhead : pk.all (fun j => decide (j < r.length)) = true :=
      hc r (List.mem_cons_self r d') pk hpk
    have htail : resultsWithinRows rs' d' = true :=
      ih fun x hx => hc x (List.mem_cons_of_mem r hx)
    simp only [resultsWithinRows, Bool.and_eq_true, beq_iff_eq] at htail
    obtain ⟨hlen, hall⟩ := htail
    simp only [resultsWithinRows, List.length_cons, List.zip_cons_cons,
      List.all_cons, Bool.and_eq_true, beq_iff_eq]
    exact ⟨by omega, hhead, hall⟩

theorem benchmarkDriver_ok_names (detect : Detector) (p : DetectorParams)
    (c w t1 t2 t3 : Nat) (d : Dataset) (report : List BenchmarkSample) :
    benchmarkDriver detect p c w t1 t2 t3 d = .ok report →
    report.map BenchmarkSample.strategyName =
      ["serial", "parallel_compute", "dask"] := by
  intro hrep
  unfold benchmarkDriver at hrep
  cases h1 : serialRun detect p d with
  | error e =>
    rw [h1] at hrep
    exact absurd hrep (by simp)
  | ok s1 =>
    rw [h1] at hrep
    cases h2 : parallelRun detect p c d with
    | error e =>
      rw [h2] at hrep
      exact absurd hrep (by simp)
    | ok s2 =>
      rw [h2] at hrep
      cases h3 : (distributedRun detect p w d).result with
      | error e =>
        rw [h3] at hrep
        exact absurd hrep (by simp)
      | ok s3 =>
        rw [h3] at hrep
        injection hrep with h
        rw [← h]
        rfl

theorem fsExists_fsRemove (fs : FileSys) (path : String) :
    fsExists (fsRemove fs path) path = false := by
  induction fs with
  | nil => rfl
  | cons e rest ih =>
    by_cases h : e.1 = path
    · simp [fsRemove, fsExists, List.filter, h]
    · have hbne : (e.1 != path) = true := by simp [h]
      have he : (e.1 == path) = false := by simp [h]
      simp only [fsRemove] at ih
      simp only [fsRemove, List.filter, hbne, fsExists, List.any_cons, he,
        Bool.false_or]
      simpa only [fsExists] using ih

/-!
Claim theorems.
-/

/-- C1: the claim that all three strategies return the same results sequence
does not hold of the notebook as written.  The serial loop and
parallel_compute do agree for every dataset, parameter set and core count,
and the spec-directed distributed run agrees with them as well; but the dask
cell as written reads the unbound name raw_data_list in its client.map line,
so every one of its runs raises NameError and returns no results sequence at
all. -/
theorem c1_strategies_agree_but_dask_cell_raises :
    (∀ (detect : Detector) (p : DetectorParams) (c : Nat) (d : Dataset),
      parallelRun detect p c d =
        match serialRun detect p d with
        | .error e => .error e
        | .ok o => .ok { o with parallelism := c }) ∧
    (∀ (detect : Detector) (p : DetectorParams) (w : Nat) (d : Dataset),
      (distributedRun detect p w d).result =
        match serialRun detect p d with
        | .error e => .error e
        | .ok o => .ok { o with parallelism := w }) ∧
    (∀ (detect : Detector) (p : DetectorParams) (w : Nat) (d : Dataset),
      (distributedRunAsWritten detect p w d).result =
        .error (.nameError "raw_data_list")) := by
  refine ⟨parallelRun_eq_serialRun, ?_, ?_⟩
  · intro detect p w d
    unfold distributedRun daskSubmitGatherClose serialRun
    cases serialLoop detect p d 0 with
    | error e => rfl
    | ok rs => rfl
  · intro detect p w d
    have hmem : "raw_data_list" ∉ daskCellBoundNames := by decide
    unfold distributedRunAsWritten
    rw [if_neg hmem]

/-- C2 counterexample: a concrete distributed run — the dask cell as written,
on the demonstration dataset with the constant-peak detector — fails at the
client.map line and leaves the connection in the dataScattered state, not
disconnected: the run failed yet client.close() never executed. -/
theorem c2_counterexample_teardown_skipped :
    (distributedRunAsWritten constPeakDetector tutorialParams 4
        demoDataset).finalState = .dataScattered ∧
    (distributedRunAsWritten constPeakDetector tutorialParams 4
        demoDataset).finalState ≠ .disconnected := by
  decide

/-- C2 amended: teardown is not guaranteed on failure.  For the spec-directed
distributed run a successful pass does end disconnected, because
client.close() is the last step before the clock is read; but a failed pass
skips teardown and leaves the client in the tasksSubmitted state, and the
cell as written always stops at the map line with the client still open and
the data scattered. -/
theorem c2_amended_teardown_only_on_success :
    (∀ (detect : Detector) (p : DetectorParams) (w : Nat) (d : Dataset),
      (distributedRun detect p w d).finalState =
        if runSucceeded (distributedRun detect p w d) then
          DaskState.disconnected
        else DaskState.tasksSubmitted) ∧
    (∀ (detect : Detector) (p : DetectorParams) (w : Nat) (d : Dataset),
      (distributedRunAsWritten detect p w d).finalState =
        DaskState.dataScattered) := by
  constructor
  · intro detect p w d
    unfold distributedRun daskSubmitGatherClose runSucceeded
    cases serialLoop detect p d 0 with
    | error e => rfl
    | ok rs => rfl
  · intro detect p w d
    have hmem : "raw_data_list" ∉ daskCellBoundNames := by decide
    unfold distributedRunAsWritten
    rw [if_neg hmem]

/-- C3 counterexample: with a detector that raises on the only row of a
one-row dataset, the driver does not record a failed sample and move on — the
exception propagates and the whole driver run aborts with no report and no
samples for the remaining strategies. -/
theorem c3_counterexample_driver_aborts :
    benchmarkDriver failingDetector tutorialParams 3 4 1 1 1 [[1]] =
      .error (.detectionFailed 0) := by
  decide

/-- C3 amended: the notebook driver is fail-fast, not partial-failure
tolerant: when the serial strategy fails, the driver surfaces that error and
records no sample for any strategy; a report is produced only when every
strategy succeeds, and then it holds exactly one sample per strategy, in
strategy order. -/
theorem c3_amended_failure_aborts_driver :
    (∀ (detect : Detector) (p : DetectorParams) (c w t1 t2 t3 : Nat)
        (d : Dataset) (e : RunError),
      serialRun detect p d = .error e →
      benchmarkDriver detect p c w t1 t2 t3 d = .error e) ∧
    (∀ (detect : Detector) (p : DetectorParams) (c w t1 t2 t3 : Nat)
        (d : Dataset) (report : List BenchmarkSample),
      benchmarkDriver detect p c w t1 t2 t3 d = .ok report →
      report.map BenchmarkSample.strategyName =
        ["serial", "parallel_compute", "dask"]) := by
  constructor
  · intro detect p c w t1 t2 t3 d e he
    unfold benchmarkDriver
    rw [he]
  · intro detect p c w t1 t2 t3 d report hrep
    exact benchmarkDriver_ok_names detect p c w t1 t2 t3 d report hrep

/-- C3 witness: a concrete failing run aborts the driver with the original
detector error, and a concrete fully successful run produces the three-sample
report in strategy order. -/
theorem c3_witness :
    benchmarkDriver failingDetector tutorialParams 3 4 1 1 1 [[2]] =
      .error (.detectionFailed 0) ∧
    demoReport.map BenchmarkSample.strategyName =
      ["serial", "parallel_compute", "dask"] :=
  ⟨c3_amended_failure_aborts_driver.1 failingDetector tutorialParams 3 4 1 1 1
      [[2]] (.detectionFailed 0) (by decide),
   c3_amended_failure_aborts_driver.2 constPeakDetector tutorialParams 3 4 1 1 1
      demoDataset demoReport (by decide)⟩

/-- C4: when the driver has run all strategies and produced its report, the
rendering step with a caller-supplied base name persists the plot under the
file name obtained by appending .png to the base, drawing one scatter point
per strategy at (parallelism, elapsedSeconds); rendering is a total function,
so the step completes. -/
theorem c4_render_persists_named_plot (detect : Detector) (p : DetectorParams)
    (c w t1 t2 t3 : Nat) (d : Dataset) (report : List BenchmarkSample)
    (base : String)
    (hrep : benchmarkDriver detect p c w t1 t2 t3 d = .ok report) :
    (renderBenchmark base report).fileName = base ++ ".png" ∧
    (renderBenchmark base report).points =
      report.map (fun s => (s.parallelism, s.elapsedSeconds)) ∧
    (renderBenchmark base report).points.length = 3 := by
  refine ⟨rfl, rfl, ?_⟩
  have hnames := benchmarkDriver_ok_names detect p c w t1 t2 t3 d report hrep
  have hlen : report.length = 3 := by
    have := congrArg List.length hnames
    simpa using this
  simp [renderBenchmark, hlen]

/-- C4 witness: the concrete successful driver run on the demonstration
dataset renders to compare.png with three scatter points. -/
theorem c4_witness :
    (renderBenchmark "compare" demoReport).fileName = "compare" ++ ".png" ∧
    (renderBenchmark "compare" demoReport).points =
      demoReport.map (fun s => (s.parallelism, s.elapsedSeconds)) ∧
    (renderBenchmark "compare" demoReport).points.length = 3 :=
  c4_render_persists_named_plot constPeakDetector tutorialParams 3 4 1 1 1
    demoDataset demoReport "compare" (by decide)

/-- C5: on any dataset, with a detector that returns on every row of the
dataset and whose returned indices respect the row bounds, each of the three
strategies — the serial loop, parallel_compute with any core count, and the
spec-directed distributed run with any slot count — succeeds with exactly one
result per dataset row and every peak index inside its row. -/
theorem c5_results_shape (d : Dataset) (detect : Detector) (p : DetectorParams)
    (c w : Nat)
    (hTotal : ∀ r ∈ d, (detect r p).isSome = true)
    (hContract : ∀ r ∈ d, ∀ pk, detect r p = some pk →
      pk.all (fun j => decide (j < r.length)) = true) :
    runResultsValid d (serialRun detect p d) = true ∧
    runResultsValid d (parallelRun detect p c d) = true ∧
    runResultsValid d ((distributedRun detect p w d).result) = true := by
  obtain ⟨rs, hloop, hrel⟩ := serialLoop_ok_of_total detect p d 0 hTotal
  have hvalid := resultsWithinRows_of_forall₂ detect p hrel hContract
  have hser : serialRun detect p d = .ok { results := rs, parallelism := 1 } := by
    unfold serialRun
    rw [hloop]
  refine ⟨?_, ?_, ?_⟩
  · rw [hser]
    exact hvalid
  · rw [parallelRun_eq_serialRun, hser]
    exact hvalid
  · unfold distributedRun daskSubmitGatherClose
    rw [hloop]
    exact hvalid

/-- C5 witness: the three strategies on the three-rows-of-length-ten dataset
with the constant peak at index four, three cores and four slots. -/
theorem c5_witness :
    runResultsValid demoDataset
      (serialRun constPeakDetector tutorialParams demoDataset) = true ∧
    runResultsValid demoDataset
      (parallelRun constPeakDetector tutorialParams 3 demoDataset) = true ∧
    runResultsValid demoDataset
      ((distributedRun constPeakDetector tutorialParams 4
          demoDataset).result) = true :=
  c5_results_shape demoDataset constPeakDetector tutorialParams 3 4
    (fun r _ => rfl)
    (fun r hr pk hpk => by
      have hpk4 : pk = [4] := by
        simpa [constPeakDetector] using hpk.symm
      have hlen : r.length = 10 := by
        simp only [demoDataset, List.mem_cons, List.not_mem_nil, or_false] at hr
        rcases hr with rfl | rfl | rfl <;> rfl
      subst hpk4
      simp [hlen])

/-- C6: for a fixed dataset and fixed parameters, parallel_compute with any
two core counts of at least one returns the same results sequence (or the
same error); only the reported parallelism differs. -/
theorem c6_core_count_never_changes_results (detect : Detector)
    (p : DetectorParams) (d : Dataset) (c1 c2 : Nat)
    (h1 : 1 ≤ c1) (h2 : 1 ≤ c2) :
    Except.map RunOutput.results (parallelRun detect p c1 d) =
      Except.map RunOutput.results (parallelRun detect p c2 d) := by
  rw [parallelRun_eq_serialRun, parallelRun_eq_serialRun]
  cases serialRun detect p d with
  | error e => rfl
  | ok o => rfl

/-- C6 witness: one core and four cores on the demonstration dataset. -/
theorem c6_witness :
    Except.map RunOutput.results
        (parallelRun constPeakDetector tutorialParams 1 demoDataset) =
      Except.map RunOutput.results
        (parallelRun constPeakDetector tutorialParams 4 demoDataset) :=
  c6_core_count_never_changes_results constPeakDetector tutorialParams
    demoDataset 1 4 (by decide) (by decide)

/-- C7: on the empty dataset every strategy returns an empty results sequence
with no error and still reports its configured parallelism — one for the
serial loop, the caller-supplied core count for parallel_compute, the cluster
slot count for the spec-directed distributed run. -/
theorem c7_empty_dataset_no_error (detect : Detector) (p : DetectorParams)
    (c w : Nat) :
    serialRun detect p [] = .ok { results := [], parallelism := 1 } ∧
    parallelRun detect p c [] = .ok { results := [], parallelism := c } ∧
    (distributedRun detect p w []).result =
      .ok { results := [], parallelism := w } := by
  refine ⟨rfl, ?_, rfl⟩
  have hser : serialRun detect p [] = .ok { results := [], parallelism := 1 } :=
    rfl
  rw [parallelRun_eq_serialRun, hser]

/-- C8: the download cell's pre-load cleanup removes any pre-existing cache
file at the cache path — afterwards no file exists there — and the subsequent
download-then-read sees exactly the freshly fetched remote content. -/
theorem c8_cleanup_removes_stale_cache (fs : FileSys) (remoteContent : Nat) :
    fsExists (preLoadCleanup fs) h5_path = false ∧
    loadDataset (downloadTo (preLoadCleanup fs) remoteContent) =
      some remoteContent := by
  constructor
  · unfold preLoadCleanup
    by_cases h : fsExists fs h5_path = true
    · rw [if_pos h]
      exact fsExists_fsRemove fs h5_path
    · rw [if_neg h]
      simpa using h
  · simp [loadDataset, fsRead, downloadTo, List.lookup]

/-- C9: in every benchmark cell the elapsed-time window opens before the
dataset is read from the HDF5 file, so each measured duration includes a
fresh complete read; in the dask cell the window additionally spans client
creation, the data scatter, and the client teardown. -/
theorem c9_window_includes_read_and_cluster_setup :
    inTimedWindow serialCellSteps .readDataset = true ∧
    inTimedWindow parallelCellSteps .readDataset = true ∧
    inTimedWindow daskCellSteps .readDataset = true ∧
    inTimedWindow daskCellSteps .createClient = true ∧
    inTimedWindow daskCellSteps .scatterData = true ∧
    inTimedWindow daskCellSteps .closeClient = true := by
  decide

/-- C10: the single-pixel demonstration indexes the first returned peak
unconditionally, so whenever the detector returns an empty peak list for the
chosen pixel the step fails with an index-out-of-range error instead of
completing. -/
theorem c10_demo_indexes_first_peak (detect : Detector) (p : DetectorParams)
    (spectra : Row) (hempty : detect spectra p = some []) :
    singlePixelDemo detect p spectra = .error .indexOutOfRange := by
  unfold singlePixelDemo
  rw [hempty]
  rfl

/-- C10 witness: a detector that finds no peak on a concrete length-ten
spectrum makes the demonstration step fail. -/
theorem c10_witness :
    singlePixelDemo noPeakDetector tutorialParams (List.replicate 10 0) =
      .error .indexOutOfRange :=
  c10_demo_indexes_first_peak noPeakDetector tutorialParams
    (List.replicate 10 0) rfl
